import Mathlib

/-!
Shallow embedding of `src/kandinsky_image_generator.js` (class `KandinskyAPI`),
a client of the Fusion Brain image-generation API.

Network interactions are modelled by explicit traces: each `fetch` + parse step
of the JS code is represented by a `FetchOutcome` value (transport failure with
HTTP status, JSON parse failure, or the parsed response object), and each
operation of the client becomes a pure function from such traces to its
observable outcome (returned value or thrown error message, plus the side
effects the code performs: status requests issued, delay suspensions awaited,
progress-callback invocations, download links created).
-/

/-- JS truthiness of an optional string value (`null`/`undefined` and the empty
string are falsy; every other string is truthy). Used for `if (style)`,
`if (negativePrompt)` and `if (data.pipeline_status)` in the source. -/
def jsTruthy : Option String → Bool
  | none => false
  | some s => s ≠ ""

/-- Minimal JSON value model, enough for the job-specification payload that
`generate` builds and serializes with `JSON.stringify(params)`. An object is an
ordered list of key/value fields; a key that is absent from the list is absent
from the serialized payload (as opposed to present with a null value). -/
inductive Json where
  | str (s : String)
  | num (n : Nat)
  | obj (fields : List (String × Json))

/-- Keys of a JSON object, in serialization order. -/
def Json.objKeys : Json → List String
  | .obj fs => fs.map Prod.fst
  | _ => []

/-- Options object accepted by `KandinskyAPI.generate` (defaults in the source:
`width = 1024`, `height = 576`, `numImages = 1`, `style = null`,
`negativePrompt = null`). `none` models an omitted option / `null`. -/
structure GenerateOptions where
  width : Nat
  height : Nat
  numImages : Nat
  style : Option String
  negativePrompt : Option String

/-- Defaults destructured in `generate` (lines 65-71 of the source). -/
def GenerateOptions.defaults : GenerateOptions :=
  ⟨1024, 576, 1, none, none⟩

/-- The `params` object built by `generate` (lines 73-89 of the source): the
five unconditional fields, then `style` only when `style` is truthy, then
`negativePromptDecoder` only when `negativePrompt` is truthy. This is the
JSON job-specification payload appended to the multipart body. -/
def buildParams (prompt : String) (opts : GenerateOptions) : Json :=
  Json.obj
    ([("type", .str "GENERATE"),
      ("numImages", .num opts.numImages),
      ("width", .num opts.width),
      ("height", .num opts.height),
      ("generateParams", .obj [("query", .str prompt)])]
     ++ (if jsTruthy opts.style then [("style", .str (opts.style.getD ""))] else [])
     ++ (if jsTruthy opts.negativePrompt then
           [("negativePromptDecoder", .str (opts.negativePrompt.getD ""))]
         else []))

/-- Outcome of one `fetch` call followed by `response.json()`:
either the response was not ok (`!response.ok`, carrying the HTTP status code
and status text), or the body failed to parse, or it parsed to a value of
type `α`. -/
inductive FetchOutcome (α : Type) where
  | notOk (status : Nat) (statusText : String)
  | parseError (msg : String)
  | parsed (data : α)

/-- Parsed response body of the `pipeline/run` endpoint, as read by `generate`:
the optional service-status field `pipeline_status` and the optional job
handle `uuid` (`none` models an absent/undefined field). -/
structure RunResponse where
  pipeline_status : Option String
  uuid : Option String

/-- Result handling of `generate` (lines 100-119 of the source): a not-ok
response throws `Failed to generate image: <status> <statusText>` which the
surrounding catch rewraps; a parse error is rewrapped likewise; a truthy
`pipeline_status` throws `Service unavailable: ...` (also rewrapped); otherwise
the (possibly undefined) `uuid` field is returned as the job handle. -/
def generateResult (resp : FetchOutcome RunResponse) : Except String (Option String) :=
  match resp with
  | .notOk status statusText =>
      .error ("Failed to generate image: " ++
        ("Failed to generate image: " ++ toString status ++ " " ++ statusText))
  | .parseError msg => .error ("Failed to generate image: " ++ msg)
  | .parsed data =>
      if jsTruthy data.pipeline_status then
        .error ("Failed to generate image: Service unavailable: " ++
          data.pipeline_status.getD "")
      else
        .ok data.uuid

/-- One entry of the pipeline-listing response: its `id` field plus any other
fields it may carry (ignored by the client). -/
structure PipelineEntry where
  id : String
  extraFields : List (String × String)

/-- The `getPipeline` operation (lines 27-48 of the source), as a function of
the listing fetch's outcome. The parsed body may be `null` (`!data` is then
truthy) or a list of entries; an empty list throws `No pipelines available`;
otherwise the first entry's `id` is returned. Every throw is caught and
rewrapped as `Failed to get pipeline ID: <cause>`. -/
def getPipeline (resp : FetchOutcome (Option (List PipelineEntry))) : Except String String :=
  match resp with
  | .notOk status statusText =>
      .error ("Failed to get pipeline ID: " ++
        ("Failed to get pipeline: " ++ toString status ++ " " ++ statusText))
  | .parseError msg => .error ("Failed to get pipeline ID: " ++ msg)
  | .parsed none => .error "Failed to get pipeline ID: No pipelines available"
  | .parsed (some []) => .error "Failed to get pipeline ID: No pipelines available"
  | .parsed (some (entry :: _)) => .ok entry.id

/-- Parsed response body of one status poll, as read by `checkGeneration`:
the `status` string, the optional `result.files` list (present on `DONE`
responses) and the optional `errorDescription` (present on `FAIL` responses). -/
structure StatusData where
  status : String
  result : Option (List String)
  errorDescription : Option String

/-- Argument object passed to the `onProgress` callback on each non-terminal
observation: `{status, attemptsLeft, totalAttempts}`, with `attemptsLeft` read
before the decrement. -/
structure ProgressEvent where
  status : String
  attemptsLeft : Nat
  totalAttempts : Nat
  deriving DecidableEq

/-- Observable outcome of one `checkGeneration` call: the returned file list or
thrown error message, the number of status requests issued, the number of
delay suspensions awaited, and the list of progress-callback invocations
(in order; these are the calls made when an `onProgress` callback is
supplied). -/
structure PollOutcome where
  result : Except String (List String)
  requests : Nat
  delays : Nat
  progressCalls : List ProgressEvent

/-- Message thrown on a `FAIL` status (line 158 of the source). -/
def generationFailedMsg (desc : String) : String :=
  "Generation failed: " ++ desc

/-- Message thrown on a not-ok status-poll response (line 149 of the source). -/
def statusCheckFailMsg (status : Nat) (statusText : String) : String :=
  "Failed to check generation status: " ++ toString status ++ " " ++ statusText

/-- Wrapper applied by the catch block of the poll loop (line 172 of the
source) to every error thrown inside the loop body. -/
def checkWrapMsg (inner : String) : String :=
  "Error checking generation: " ++ inner

/-- JS `a || b` for an optional string `a`: the value of `a` when truthy,
otherwise the fallback `b`. A missing field and the empty string both fall
back. Models `data.errorDescription || 'Unknown error'` (line 157 of the
source). -/
def jsOrElse (a : Option String) (b : String) : String :=
  if jsTruthy a then a.getD "" else b

/-- Inner error message produced by a failed fetch + parse step inside the
poll loop, before the catch block wraps it; `none` when the step parsed. -/
def FetchOutcome.errMsg : FetchOutcome StatusData → Option String
  | .notOk status statusText => some (statusCheckFailMsg status statusText)
  | .parseError msg => some msg
  | .parsed _ => none

/-- The `while (attemptsLeft > 0)` loop of `checkGeneration` (lines 141-176 of
the source). `polls i` is the outcome of the `i`-th status fetch (0-based);
`totalAttempts` is the original `attempts` value captured for progress events;
`idx` is the index of the next fetch; the last argument is `attemptsLeft`.
Exhausting the budget throws `Generation timed out` (outside the try/catch, so
unwrapped); a failed fetch or parse step, a `DONE` status with a missing
`result` field, and a `FAIL` status all throw inside the try block and are
rewrapped by the catch; any other status records a progress event, decrements
`attemptsLeft`, awaits one delay and iterates. -/
def checkGenLoop (polls : Nat → FetchOutcome StatusData) (totalAttempts : Nat) :
    Nat → Nat → PollOutcome
  | _, 0 => ⟨.error "Generation timed out", 0, 0, []⟩
  | idx, n + 1 =>
    match polls idx with
    | .notOk status statusText =>
        ⟨.error (checkWrapMsg (statusCheckFailMsg status statusText)), 1, 0, []⟩
    | .parseError msg => ⟨.error (checkWrapMsg msg), 1, 0, []⟩
    | .parsed data =>
        if data.status = "DONE" then
          match data.result with
          | some files => ⟨.ok files, 1, 0, []⟩
          | none =>
              ⟨.error (checkWrapMsg
                  "Cannot read properties of undefined (reading 'files')"), 1, 0, []⟩
        else if data.status = "FAIL" then
          ⟨.error (checkWrapMsg
              (generationFailedMsg (jsOrElse data.errorDescription "Unknown error"))), 1, 0, []⟩
        else
          let rest := checkGenLoop polls totalAttempts (idx + 1) n
          ⟨rest.result, rest.requests + 1, rest.delays + 1,
            ⟨data.status, n + 1, totalAttempts⟩ :: rest.progressCalls⟩

/-- The `checkGeneration` operation: runs the poll loop with `attemptsLeft`
initialized to `attempts` (source default: 20). -/
def checkGeneration (polls : Nat → FetchOutcome StatusData) (attempts : Nat) : PollOutcome :=
  checkGenLoop polls attempts 0 attempts

/-- Default `attempts` value of `checkGeneration` (line 134 of the source). -/
def defaultAttempts : Nat := 20

/-- JS `String.prototype.startsWith`, modelled on the character sequence:
`strStartsWith s p` holds when `p`'s characters are a prefix of `s`'s. -/
def strStartsWith (s p : String) : Bool :=
  p.data.isPrefixOf s.data

/-- Image-payload normalization done by `saveImages` (lines 194-197 of the
source): prepend the data-URL marker unless the payload already starts with
`data:image`. -/
def processImageData (imgData : String) : String :=
  if strStartsWith imgData "data:image" then imgData
  else "data:image/png;base64," ++ imgData

/-- One iteration of the `forEach` in `saveImages` (lines 192-209): derives the
filename `{pre}_{i}.png` from the zero-based index and the processed payload
used as the download link's href. -/
def saveImageStep (pre : String) (i : Nat) (imgData : String) : String × String :=
  (pre ++ "_" ++ toString i ++ ".png", processImageData imgData)

/-- The `saveImages` operation (lines 188-212 of the source): for each payload
in order, the derived filename paired with the processed payload emitted to
the download link. The returned filename list is the first projection. -/
def saveImages (base64Images : List String) (pre : String) : List (String × String) :=
  base64Images.enum.map fun p => saveImageStep pre p.1 p.2

/-- Default filename stem of `saveImages` (line 189 of the source). -/
def defaultFilenameStem : String := "kandinsky"

/-- Helper: the keys of the job-specification payload, abstracted over the two
conditional fields. -/
theorem objKeys_buildParams (prompt : String) (opts : GenerateOptions) :
    (buildParams prompt opts).objKeys =
      ["type", "numImages", "width", "height", "generateParams"]
      ++ (if jsTruthy opts.style then ["style"] else [])
      ++ (if jsTruthy opts.negativePrompt then ["negativePromptDecoder"] else []) := by
  simp only [buildParams, Json.objKeys, List.map_append]
  cases jsTruthy opts.style <;> cases jsTruthy opts.negativePrompt <;> simp

/-- C5: when the `style` option is omitted the submitted payload has no
`style` key at all, and when the `negativePrompt` option is omitted the
payload has no `negativePromptDecoder` key at all. -/
theorem omitted_options_absent_from_payload (prompt : String) (opts : GenerateOptions) :
    (opts.style = none → "style" ∉ (buildParams prompt opts).objKeys) ∧
    (opts.negativePrompt = none →
      "negativePromptDecoder" ∉ (buildParams prompt opts).objKeys) := by
  constructor
  · intro h
    rw [objKeys_buildParams]
    cases hnp : jsTruthy opts.negativePrompt <;> simp [h, jsTruthy, hnp]
  · intro h
    rw [objKeys_buildParams]
    cases hst : jsTruthy opts.style <;> simp [h, jsTruthy, hst]

/-- Witness for C5 at the source's default options. -/
theorem omitted_options_absent_from_payload_witness :
    GenerateOptions.defaults.style = none ∧
    GenerateOptions.defaults.negativePrompt = none ∧
    "style" ∉ (buildParams "a cat" GenerateOptions.defaults).objKeys ∧
    "negativePromptDecoder" ∉ (buildParams "a cat" GenerateOptions.defaults).objKeys :=
  ⟨rfl, rfl,
    (omitted_options_absent_from_payload "a cat" GenerateOptions.defaults).1 rfl,
    (omitted_options_absent_from_payload "a cat" GenerateOptions.defaults).2 rfl⟩

/-- C10: supplying `style` or `negativePrompt` as the empty string (a falsy
value) omits the corresponding field exactly as if the option were absent:
the payload equals the one built with the option omitted, and the key does
not appear. The inclusion test is truthiness of the value. -/
theorem falsy_options_omitted_like_absent (prompt : String) (opts : GenerateOptions) :
    buildParams prompt { opts with style := some "", negativePrompt := some "" } =
      buildParams prompt { opts with style := none, negativePrompt := none } ∧
    "style" ∉ (buildParams prompt { opts with style := some "" }).objKeys ∧
    "negativePromptDecoder" ∉
      (buildParams prompt { opts with negativePrompt := some "" }).objKeys := by
  refine ⟨?_, ?_, ?_⟩
  · simp [buildParams, jsTruthy]
  · rw [objKeys_buildParams]
    cases hnp : jsTruthy opts.negativePrompt <;> simp [jsTruthy, hnp]
  · rw [objKeys_buildParams]
    cases hst : jsTruthy opts.style <;> simp [jsTruthy, hst]

/-- C6: when the parsed `pipeline/run` response has a truthy
`pipeline_status` field, `generate` fails with the service-unavailable
submission error even though the transport call succeeded, and no job handle
is returned. -/
theorem truthy_pipeline_status_fails_submission (data : RunResponse)
    (h : jsTruthy data.pipeline_status = true) :
    generateResult (.parsed data) =
      .error ("Failed to generate image: Service unavailable: " ++
        data.pipeline_status.getD "") := by
  simp [generateResult, h]

/-- Witness for C6 at a concrete response whose transport call succeeded. -/
theorem truthy_pipeline_status_fails_submission_witness :
    generateResult (.parsed ⟨some "DISABLED_BY_QUEUE", some "uuid-1"⟩) =
      .error "Failed to generate image: Service unavailable: DISABLED_BY_QUEUE" := by
  have h := truthy_pipeline_status_fails_submission ⟨some "DISABLED_BY_QUEUE", some "uuid-1"⟩
    (by decide)
  simpa using h

/-- C7: a pipeline listing that parses to a non-empty sequence resolves to
exactly the `id` of the first entry, whatever the remaining entries are. -/
theorem getPipeline_first_entry_id (entry : PipelineEntry) (rest : List PipelineEntry) :
    getPipeline (.parsed (some (entry :: rest))) = .ok entry.id :=
  rfl

/-- C8: a pipeline listing that parses to an empty sequence fails with the
resolution error and yields no pipeline identifier. -/
theorem getPipeline_empty_fails :
    getPipeline (.parsed (some [])) =
      .error "Failed to get pipeline ID: No pipelines available" :=
  rfl

/-- C9: `saveImages` produces one output per input in the same order; the
`i`-th output's filename is `{pre}_{i}.png` from the zero-based position, and
its payload is the input with the data-image marker prepended exactly when the
input does not already start with that marker. -/
theorem saveImages_filenames_and_payloads (imgs : List String) (pre : String) :
    (saveImages imgs pre).length = imgs.length ∧
    ∀ (i : Nat) (img : String), imgs[i]? = some img →
      (saveImages imgs pre)[i]? =
        some (pre ++ "_" ++ toString i ++ ".png",
          if strStartsWith img "data:image" then img
          else "data:image/png;base64," ++ img) := by
  constructor
  · simp [saveImages]
  · intro i img h
    simp [saveImages, List.getElem?_map, List.getElem?_enum, h, saveImageStep,
      processImageData]

/-- Witness for C9 at the spec's example inputs with the default stem. -/
theorem saveImages_filenames_and_payloads_witness :
    (saveImages ["iVBORw0KG", "data:image/png;base64,AAA"] defaultFilenameStem).length = 2 ∧
    (saveImages ["iVBORw0KG", "data:image/png;base64,AAA"] defaultFilenameStem)[0]? =
      some ("kandinsky_0.png", "data:image/png;base64,iVBORw0KG") ∧
    (saveImages ["iVBORw0KG", "data:image/png;base64,AAA"] defaultFilenameStem)[1]? =
      some ("kandinsky_1.png", "data:image/png;base64,AAA") := by
  have h := saveImages_filenames_and_payloads
    ["iVBORw0KG", "data:image/png;base64,AAA"] defaultFilenameStem
  refine ⟨h.1, ?_, ?_⟩
  · rw [h.2 0 "iVBORw0KG" rfl]; decide
  · rw [h.2 1 "data:image/png;base64,AAA" rfl]; decide

/-- Helper: a non-terminal status observation records one progress event
carrying the pre-decrement `attemptsLeft`, counts one request and one delay,
and continues the loop at the next poll index. -/
theorem checkGenLoop_nonterminal (polls : Nat → FetchOutcome StatusData)
    (totalAttempts idx n : Nat) (d : StatusData)
    (hp : polls idx = .parsed d) (hD : d.status ≠ "DONE") (hF : d.status ≠ "FAIL") :
    checkGenLoop polls totalAttempts idx (n + 1) =
      ⟨(checkGenLoop polls totalAttempts (idx + 1) n).result,
        (checkGenLoop polls totalAttempts (idx + 1) n).requests + 1,
        (checkGenLoop polls totalAttempts (idx + 1) n).delays + 1,
        ⟨d.status, n + 1, totalAttempts⟩ ::
          (checkGenLoop polls totalAttempts (idx + 1) n).progressCalls⟩ := by
  simp [checkGenLoop, hp, hD, hF]

/-- Helper: a `DONE` observation with a present `result.files` returns the
file list at once. -/
theorem checkGenLoop_done (polls : Nat → FetchOutcome StatusData)
    (totalAttempts idx n : Nat) (d : StatusData) (files : List String)
    (hp : polls idx = .parsed d) (hD : d.status = "DONE") (hr : d.result = some files) :
    checkGenLoop polls totalAttempts idx (n + 1) = ⟨.ok files, 1, 0, []⟩ := by
  simp [checkGenLoop, hp, hD, hr]

/-- C1: when the first three status observations are `PENDING`, `PENDING`,
`DONE` (with the budget allowing them), `checkGeneration` returns the `DONE`
response's file list after exactly 2 non-terminal observations (3 status
requests, 2 delays), invokes the progress callback exactly twice, and the
`attemptsLeft` passed to the callback decreases strictly by one between the
two calls. -/
theorem poll_pending_pending_done (polls : Nat → FetchOutcome StatusData)
    (attempts : Nat) (h3 : 3 ≤ attempts) (files : List String) (d0 d1 : StatusData)
    (h0 : polls 0 = .parsed d0) (hs0 : d0.status = "PENDING")
    (h1 : polls 1 = .parsed d1) (hs1 : d1.status = "PENDING")
    (h2 : polls 2 = .parsed ⟨"DONE", some files, none⟩) :
    (checkGeneration polls attempts).result = .ok files ∧
    (checkGeneration polls attempts).requests = 3 ∧
    (checkGeneration polls attempts).delays = 2 ∧
    (checkGeneration polls attempts).progressCalls =
      [⟨"PENDING", attempts, attempts⟩, ⟨"PENDING", attempts - 1, attempts⟩] := by
  obtain ⟨m, rfl⟩ : ∃ m, attempts = m + 1 + 1 + 1 := ⟨attempts - 3, by omega⟩
  rw [checkGeneration,
    checkGenLoop_nonterminal polls (m + 1 + 1 + 1) 0 (m + 1 + 1) d0 h0
      (by rw [hs0]; decide) (by rw [hs0]; decide),
    checkGenLoop_nonterminal polls (m + 1 + 1 + 1) 1 (m + 1) d1 h1
      (by rw [hs1]; decide) (by rw [hs1]; decide),
    checkGenLoop_done polls (m + 1 + 1 + 1) 2 m ⟨"DONE", some files, none⟩ files h2 rfl rfl]
  refine ⟨rfl, rfl, rfl, ?_⟩
  simp [hs0, hs1]

/-- Trace for the C1 witness: `PENDING`, `PENDING`, then `DONE` with one
file. -/
def pollsPPD : Nat → FetchOutcome StatusData
  | 0 => .parsed ⟨"PENDING", none, none⟩
  | 1 => .parsed ⟨"PENDING", none, none⟩
  | _ => .parsed ⟨"DONE", some ["img0"], none⟩

/-- Witness for C1 at the source's default attempt budget. -/
theorem poll_pending_pending_done_witness :
    (checkGeneration pollsPPD defaultAttempts).result = .ok ["img0"] ∧
    (checkGeneration pollsPPD defaultAttempts).requests = 3 ∧
    (checkGeneration pollsPPD defaultAttempts).delays = 2 ∧
    (checkGeneration pollsPPD defaultAttempts).progressCalls =
      [⟨"PENDING", 20, 20⟩, ⟨"PENDING", 19, 20⟩] := by
  have h := poll_pending_pending_done pollsPPD defaultAttempts (by decide) ["img0"]
    ⟨"PENDING", none, none⟩ ⟨"PENDING", none, none⟩ rfl rfl rfl rfl rfl
  exact ⟨h.1, h.2.1, h.2.2.1, by rw [h.2.2.2]; decide⟩

/-- C2: a first observation with status `FAIL` makes `checkGeneration` fail at
once with the generation-failed message carrying the service-provided
`errorDescription` when truthy (otherwise — absent or empty — the generic
`Unknown error`), wrapped by the loop's catch block; exactly one status
request is issued, no delay is awaited and no progress callback fires. -/
theorem poll_fail_immediate (polls : Nat → FetchOutcome StatusData)
    (attempts : Nat) (h1 : 1 ≤ attempts) (d : StatusData)
    (h0 : polls 0 = .parsed d) (hf : d.status = "FAIL") :
    (checkGeneration polls attempts).result =
      .error (checkWrapMsg
        (generationFailedMsg (jsOrElse d.errorDescription "Unknown error"))) ∧
    (checkGeneration polls attempts).requests = 1 ∧
    (checkGeneration polls attempts).delays = 0 ∧
    (checkGeneration polls attempts).progressCalls = [] := by
  obtain ⟨m, rfl⟩ : ∃ m, attempts = m + 1 := ⟨attempts - 1, by omega⟩
  rw [checkGeneration]
  simp [checkGenLoop, h0, hf]

/-- Trace for the C2 witness: an immediate `FAIL` with a description. -/
def pollsFailFirst : Nat → FetchOutcome StatusData :=
  fun _ => .parsed ⟨"FAIL", none, some "Prompt was rejected"⟩

/-- Trace for the C2 witness's fallback case: an immediate `FAIL` whose
`errorDescription` is the empty string (falsy in JS). -/
def pollsFailEmptyDesc : Nat → FetchOutcome StatusData :=
  fun _ => .parsed ⟨"FAIL", none, some ""⟩

/-- Witness for C2 at the source's default attempt budget, covering both a
truthy description and the empty-string fallback to `Unknown error`. -/
theorem poll_fail_immediate_witness :
    (checkGeneration pollsFailFirst defaultAttempts).result =
      .error (checkWrapMsg (generationFailedMsg "Prompt was rejected")) ∧
    (checkGeneration pollsFailFirst defaultAttempts).requests = 1 ∧
    (checkGeneration pollsFailFirst defaultAttempts).delays = 0 ∧
    (checkGeneration pollsFailFirst defaultAttempts).progressCalls = [] ∧
    (checkGeneration pollsFailEmptyDesc defaultAttempts).result =
      .error (checkWrapMsg (generationFailedMsg "Unknown error")) := by
  have h := poll_fail_immediate pollsFailFirst defaultAttempts (by decide)
    ⟨"FAIL", none, some "Prompt was rejected"⟩ rfl rfl
  have h' := poll_fail_immediate pollsFailEmptyDesc defaultAttempts (by decide)
    ⟨"FAIL", none, some ""⟩ rfl rfl
  refine ⟨?_, h.2.1, h.2.2.1, h.2.2.2, ?_⟩
  · rw [h.1]; simp [jsOrElse, jsTruthy]
  · rw [h'.1]; simp [jsOrElse, jsTruthy]

/-- Helper: when every poll parses to a non-terminal status, the loop runs its
whole remaining budget, issuing one request and one delay per iteration, and
ends in the timeout error (thrown outside the try/catch, hence unwrapped). -/
theorem checkGenLoop_all_nonterminal (polls : Nat → FetchOutcome StatusData)
    (totalAttempts : Nat)
    (hnt : ∀ i, ∃ d, polls i = .parsed d ∧ d.status ≠ "DONE" ∧ d.status ≠ "FAIL") :
    ∀ n idx, (checkGenLoop polls totalAttempts idx n).result =
        .error "Generation timed out" ∧
      (checkGenLoop polls totalAttempts idx n).requests = n ∧
      (checkGenLoop polls totalAttempts idx n).delays = n := by
  intro n
  induction n with
  | zero => intro idx; exact ⟨rfl, rfl, rfl⟩
  | succ k ih =>
    intro idx
    obtain ⟨d, hp, hD, hF⟩ := hnt idx
    have hrec := ih (idx + 1)
    simp [checkGenLoop_nonterminal polls totalAttempts idx k d hp hD hF,
      hrec.1, hrec.2.1, hrec.2.2]

/-- C3: when every observation reports a non-terminal status, `checkGeneration`
with a budget of `attempts ≥ 1` fails with the timeout error after exactly
`attempts` status requests and exactly `attempts` delay suspensions. -/
theorem poll_never_resolving_times_out (polls : Nat → FetchOutcome StatusData)
    (attempts : Nat) (_h1 : 1 ≤ attempts)
    (hnt : ∀ i, ∃ d, polls i = .parsed d ∧ d.status ≠ "DONE" ∧ d.status ≠ "FAIL") :
    (checkGeneration polls attempts).result = .error "Generation timed out" ∧
    (checkGeneration polls attempts).requests = attempts ∧
    (checkGeneration polls attempts).delays = attempts :=
  checkGenLoop_all_nonterminal polls attempts hnt attempts 0

/-- Trace for the C3 witness: every poll reports `PENDING`. -/
def pollsAllPending : Nat → FetchOutcome StatusData :=
  fun _ => .parsed ⟨"PENDING", none, none⟩

/-- Witness for C3 at a budget of 5 attempts. -/
theorem poll_never_resolving_times_out_witness :
    (checkGeneration pollsAllPending 5).result = .error "Generation timed out" ∧
    (checkGeneration pollsAllPending 5).requests = 5 ∧
    (checkGeneration pollsAllPending 5).delays = 5 :=
  poll_never_resolving_times_out pollsAllPending 5 (by decide)
    (fun _ => ⟨⟨"PENDING", none, none⟩, rfl, by decide, by decide⟩)

/-- Helper: the not-ok status-poll message and the FAIL-status message are
different strings, whatever the HTTP status, status text and description. -/
theorem statusCheckFailMsg_ne_generationFailedMsg (s : Nat) (st desc : String) :
    statusCheckFailMsg s st ≠ generationFailedMsg desc := by
  intro h
  have h2 := congrArg (fun x => x.data.head?) h
  simp only [statusCheckFailMsg, generationFailedMsg, String.data_append] at h2
  simp at h2

/-- Helper: a failed fetch or parse step at poll index `k`, after `k`
non-terminal observations, aborts the loop with the wrapped inner message,
having issued `k + 1` requests and `k` delays. -/
theorem checkGenLoop_inner_error (polls : Nat → FetchOutcome StatusData)
    (totalAttempts : Nat) (m : String) :
    ∀ k idx n, k < n →
      (∀ i, i < k →
        ∃ d, polls (idx + i) = .parsed d ∧ d.status ≠ "DONE" ∧ d.status ≠ "FAIL") →
      (polls (idx + k)).errMsg = some m →
      (checkGenLoop polls totalAttempts idx n).result = .error (checkWrapMsg m) ∧
      (checkGenLoop polls totalAttempts idx n).requests = k + 1 ∧
      (checkGenLoop polls totalAttempts idx n).delays = k := by
  intro k
  induction k with
  | zero =>
    intro idx n hn hpre herr
    obtain ⟨n', rfl⟩ : ∃ n', n = n' + 1 := ⟨n - 1, by omega⟩
    rw [Nat.add_zero] at herr
    cases he : polls idx with
    | notOk s st =>
      rw [he] at herr
      simp only [FetchOutcome.errMsg, Option.some.injEq] at herr
      simp [checkGenLoop, he, herr]
    | parseError msg =>
      rw [he] at herr
      simp only [FetchOutcome.errMsg, Option.some.injEq] at herr
      simp [checkGenLoop, he, herr]
    | parsed d =>
      rw [he] at herr
      simp [FetchOutcome.errMsg] at herr
  | succ k' ih =>
    intro idx n hn hpre herr
    obtain ⟨n', rfl⟩ : ∃ n', n = n' + 1 := ⟨n - 1, by omega⟩
    obtain ⟨d, hp, hD, hF⟩ := hpre 0 (Nat.succ_pos k')
    rw [Nat.add_zero] at hp
    have hrec := ih (idx + 1) n' (by omega)
      (fun i hi => by
        obtain ⟨d', hp', hD', hF'⟩ := hpre (i + 1) (by omega)
        refine ⟨d', ?_, hD', hF'⟩
        rw [show idx + 1 + i = idx + (i + 1) by omega]
        exact hp')
      (by rw [show idx + 1 + k' = idx + (k' + 1) by omega]; exact herr)
    simp [checkGenLoop_nonterminal polls totalAttempts idx n' d hp hD hF,
      hrec.1, hrec.2.1, hrec.2.2]

/-- C4: a transport or parse failure at any status poll (after any run of
non-terminal observations that fits the budget) raises immediately with the
wrapped status-check message, aborting the loop — one request for the failing
poll, no further polls, no delay for the aborted iteration — and the not-ok
status-check message always differs from the generation-failed message raised
for a `FAIL` status. -/
theorem status_check_error_aborts (polls : Nat → FetchOutcome StatusData)
    (attempts k : Nat) (m : String) (hk : k < attempts)
    (hpre : ∀ i, i < k →
      ∃ d, polls i = .parsed d ∧ d.status ≠ "DONE" ∧ d.status ≠ "FAIL")
    (herr : (polls k).errMsg = some m) :
    (checkGeneration polls attempts).result = .error (checkWrapMsg m) ∧
    (checkGeneration polls attempts).requests = k + 1 ∧
    (checkGeneration polls attempts).delays = k ∧
    ∀ (s : Nat) (st desc : String),
      statusCheckFailMsg s st ≠ generationFailedMsg desc := by
  have h := checkGenLoop_inner_error polls attempts m k 0 attempts hk
    (fun i hi => by simpa using hpre i hi) (by simpa using herr)
  exact ⟨h.1, h.2.1, h.2.2, statusCheckFailMsg_ne_generationFailedMsg⟩

/-- Trace for the C4 witness: one `PENDING`, then an HTTP 500 on the second
poll. -/
def pollsPendingThenHttpError : Nat → FetchOutcome StatusData
  | 0 => .parsed ⟨"PENDING", none, none⟩
  | _ => .notOk 500 "Internal Server Error"

/-- Witness for C4 at the source's default attempt budget. -/
theorem status_check_error_aborts_witness :
    (checkGeneration pollsPendingThenHttpError defaultAttempts).result =
      .error (checkWrapMsg (statusCheckFailMsg 500 "Internal Server Error")) ∧
    (checkGeneration pollsPendingThenHttpError defaultAttempts).requests = 2 ∧
    (checkGeneration pollsPendingThenHttpError defaultAttempts).delays = 1 ∧
    statusCheckFailMsg 500 "Internal Server Error" ≠ generationFailedMsg "Unknown error" := by
  have h := status_check_error_aborts pollsPendingThenHttpError defaultAttempts 1
    (statusCheckFailMsg 500 "Internal Server Error") (by decide)
    (fun i hi => by
      have hi0 : i = 0 := by omega
      subst hi0
      exact ⟨⟨"PENDING", none, none⟩, rfl, by decide, by decide⟩)
    rfl
  exact ⟨h.1, h.2.1, h.2.2.1, h.2.2.2 500 "Internal Server Error" "Unknown error"⟩
